import Mathlib

/-!
# Verification of the pyani ANIm orchestration core

A shallow embedding of `pyani/scripts/subcommands/subcmd_anim.py`:
the incremental comparison-orchestration engine (deduplication, recovery
scanning, job building, dispatch, result ingestion, matrix synthesis).

External collaborators (the nucmer command builder `anim.construct_nucmer_cmdline`,
the delta parser `anim.parse_delta`, the dependency-graph executors, the ORM
session) are modelled as oracle parameters; everything else is translated
directly from the source file.

Machine reals (Python floats) are modelled as rationals `ℚ`; Python's
`ZeroDivisionError` and `TypeError` are modelled with an explicit error type.
-/

namespace Pyani

/-- Genome ORM record: the fields the orchestration core reads. -/
structure GenomeR where
  genome_id : Nat
  path : String
  length : Nat
  description : String
  deriving DecidableEq, Repr

/-- Comparison ORM record (`pyani_orm.Comparison`): one persisted pairwise
result, with the composite-key fields and the derived numeric fields. -/
structure ComparisonR where
  query_id : Nat
  subject_id : Nat
  aln_length : Nat
  sim_errs : Nat
  identity : ℚ
  cov_query : ℚ
  cov_subject : ℚ
  program : String
  version : String
  fragsize : Option Nat
  maxmatch : Bool
  deriving DecidableEq, Repr

/-- The composite identity key of a Comparison:
`(query_id, subject_id, program, version, fragsize, maxmatch)`. -/
abbrev CmpKey := Nat × Nat × String × String × Option Nat × Bool

/-- The key tuple extracted from a stored Comparison, as in the dict
comprehension over `session.query(Comparison).all()`. -/
def comparisonKey (c : ComparisonR) : CmpKey :=
  (c.query_id, c.subject_id, c.program, c.version, c.fragsize, c.maxmatch)

/-- Dependency-graph node (`pyani_jobs.Job`, an external collaborator):
a named command with named predecessors (`add_dependency`). -/
structure JobR where
  name : String
  command : String
  deps : List String
  deriving DecidableEq, Repr

/-- The `ComparisonJob` namedtuple:
`(query, subject, filtercmd, nucmercmd, outfile, job)`. -/
structure ComparisonJobR where
  query : GenomeR
  subject : GenomeR
  filtercmd : String
  nucmercmd : String
  outfile : String
  job : JobR
  deriving DecidableEq, Repr

/-- The command-line arguments the orchestration core consults. -/
structure Args where
  maxmatch : Bool
  nofilter : Bool
  recovery : Bool
  scheduler : String
  jobpfx : String
  deriving DecidableEq, Repr

/-- Python runtime faults and the pyani fatal exception that the core can
raise past its caller. -/
inductive PyError where
  | typeError
  | zeroDivisionError
  | pyaniException
  deriving DecidableEq, Repr

/-- External collaborators, supplied as oracles:
`anim.construct_nucmer_cmdline` (returns `(ncmd, dcmd)`),
`run_mp.run_dependency_graph` (returns the cumulative failure value),
`anim.parse_delta` (returns `(aln_length, sim_errs)`), and the
directory listing `os.listdir(deltadir)`. -/
structure Ext where
  cmds : GenomeR → GenomeR → String × String
  runDepGraph : List JobR → Nat
  parse : String → Nat × Nat
  listing : List String

/- ### Path helpers (`os.path.splitext`, `os.path.split`) -/

/-- Index of the last occurrence of `c` in `cs`, if any. -/
def lastIdx (c : Char) (cs : List Char) : Option Nat :=
  (List.range cs.length).foldl
    (fun acc i => if cs.getD i ' ' = c then some i else acc) none

/-- The extension component of `os.path.splitext fname`: everything from the
last dot on, provided that dot lies in the basename and is preceded there by
a non-dot character (so `.bashrc` has no extension). -/
def splitextExt (fname : String) : String :=
  let cs := fname.toList
  let sep := match lastIdx '/' cs with
    | some i => i + 1
    | none => 0
  match lastIdx '.' cs with
  | none => ""
  | some d =>
    if sep ≤ d ∧ (List.range' sep (d - sep)).any (fun j => cs.getD j '.' ≠ '.') then
      String.mk (cs.drop d)
    else ""

/-- Model of `os.path.split(p)[-1]`: the basename, everything after the last slash. -/
def pathBasename (p : String) : String :=
  match lastIdx '/' p.toList with
  | none => p
  | some i => String.mk (p.toList.drop (i + 1))

/- ### Recovery Scanner (`collect_existing_output`) -/

/-- The list the body of `collect_existing_output` computes:
filenames in the directory listing whose `splitext` extension equals
`".delta"` when `nofilter` is set and `".filter"` otherwise. -/
def collect_existing_output_body (listing : List String) (args : Args) : List String :=
  let suffix := if args.nofilter then ".delta" else ".filter"
  listing.filter (fun fname => splitextExt fname = suffix)

/-- The function `collect_existing_output(dirpath, args, logger)`: computes the list of
existing output files but has no `return` statement, so, as a Python
function, it returns `None`. -/
def collect_existing_output (listing : List String) (args : Args) :
    Option (List String) :=
  let _existingfiles := collect_existing_output_body listing args
  none

/-- Number of required parameters of `collect_existing_output`:
`(dirpath, args, logger)`, none with a default. -/
def collect_existing_output_required_args : Nat := 3

/-- Number of arguments at the call site in `subcmd_anim`:
`collect_existing_output(deltadir, args)`. -/
def collect_existing_output_callsite_args : Nat := 2

/-- Python call semantics for a function whose parameters all lack defaults:
passing fewer arguments than required raises `TypeError` before the body
runs. -/
def pythonCall (required given : Nat) (result : α) : Except PyError α :=
  if given < required then .error .typeError else .ok result

/-- The recovery-mode call as written in `subcmd_anim`:
`existingfiles = collect_existing_output(deltadir, args)` — two arguments
against three required parameters. -/
def collectCallInSubcmd (args : Args) (ext : Ext) :
    Except PyError (Option (List String)) :=
  pythonCall collect_existing_output_required_args
    collect_existing_output_callsite_args
    (collect_existing_output ext.listing args)

/- ### Candidate pairs and the Deduplication Engine -/

/-- Model of `itertools.combinations(genomes, 2)`: all ordered-by-position pairs. -/
def pairCombinations : List α → List (α × α)
  | [] => []
  | x :: xs => xs.map (fun y => (x, y)) ++ pairCombinations xs

/-- Drop every binding for key `k`. -/
def dictRemove (k : CmpKey) : List (CmpKey × ComparisonR) → List (CmpKey × ComparisonR)
  | [] => []
  | kv :: rest => if kv.1 = k then dictRemove k rest else kv :: dictRemove k rest

/-- Python dict insertion: a later binding for the same key overwrites the
earlier one. -/
def dictInsert (m : List (CmpKey × ComparisonR)) (k : CmpKey) (v : ComparisonR) :
    List (CmpKey × ComparisonR) :=
  (k, v) :: dictRemove k m

/-- The dict comprehension over `session.query(Comparison).all()` keyed by
the composite key. -/
def buildExistingMap : List ComparisonR → List (CmpKey × ComparisonR)
  | [] => []
  | c :: rest => dictInsert (buildExistingMap rest) (comparisonKey c) c

/-- Python dict lookup: the first (most recently inserted) binding wins. -/
def dictFind (k : CmpKey) : List (CmpKey × ComparisonR) → Option ComparisonR
  | [] => none
  | kv :: rest => if kv.1 = k then some kv.2 else dictFind k rest

/-- The lookup key `(query.genome_id, subject.genome_id, "nucmer",
nucmer_version, None, args.maxmatch)` used by the dedup loop. -/
def lookupKey (q s : GenomeR) (version : String) (maxmatch : Bool) : CmpKey :=
  (q.genome_id, s.genome_id, "nucmer", version, none, maxmatch)

/-- The dedup loop of `subcmd_anim` (lines 197–214): for each candidate
pair, a hit on the lookup key appends the stored Comparison to the run and
drops the pair; a `KeyError` keeps the pair in `comparisons_to_run`.
Returns `(appended reused records, comparisons_to_run)`, both in input
order. -/
def dedupComparisons (emap : List (CmpKey × ComparisonR)) (version : String)
    (maxmatch : Bool) :
    List (GenomeR × GenomeR) → List ComparisonR × List (GenomeR × GenomeR)
  | [] => ([], [])
  | (q, s) :: rest =>
    let acc := dedupComparisons emap version maxmatch rest
    match dictFind (lookupKey q s version maxmatch) emap with
    | some c => (c :: acc.1, acc.2)
    | none => (acc.1, (q, s) :: acc.2)

/- ### Job Builder (`generate_joblist`) -/

/-- Model of `"%06d" % idx`: zero-pad to width 6. -/
def padZeros (w : Nat) (s : String) : String :=
  if w ≤ s.length then s
  else String.mk (List.replicate (w - s.length) '0') ++ s

/-- Job name `"%s_%06d-n" % (args.jobprefix, idx)` (or `-f`). -/
def jobName (pfx : String) (idx : Nat) (tag : String) : String :=
  pfx ++ "_" ++ padZeros 6 (toString idx) ++ tag

/-- One iteration's job construction: the nucmer node, the filter node
depending on it, and the `ComparisonJob` holding the filter node. -/
def buildComparisonJob (args : Args) (idx : Nat) (query subject : GenomeR)
    (ncmd dcmd outfname : String) : ComparisonJobR :=
  let njob : JobR := ⟨jobName args.jobpfx idx "-n", ncmd, []⟩
  let fjob : JobR := ⟨jobName args.jobpfx idx "-f", dcmd, [njob.name]⟩
  ⟨query, subject, dcmd, ncmd, outfname, fjob⟩

/-- Helper for `pySplit`: walk the characters, accumulating the current
word reversed. -/
def pySplitAux : List Char → List Char → List String
  | [], [] => []
  | [], acc => [String.mk acc.reverse]
  | c :: rest, acc =>
    if c = ' ' then
      match acc with
      | [] => pySplitAux rest []
      | _ => String.mk acc.reverse :: pySplitAux rest []
    else pySplitAux rest (c :: acc)

/-- Python's `str.split()` with no separator: split on runs of whitespace
(spaces, for the command strings at hand), dropping empty fields. -/
def pySplit (s : String) : List String := pySplitAux s.toList []

/-- The expected final output file for a pair: the nucmer command's fourth
token (`outprefix = ncmd.split()[3]`) plus `".delta"` when `nofilter` is
set, `".filter"` otherwise. -/
def expectedOutfile (args : Args) (ext : Ext) (query subject : GenomeR) : String :=
  let ncmd := (ext.cmds query subject).1
  let outstem := (pySplit ncmd).getD 3 ""
  outstem ++ (if args.nofilter then ".delta" else ".filter")

/-- Body of `generate_joblist`, with the `enumerate` index threaded through.
For each pair: build the two commands, derive the expected output file from
the nucmer command's fourth token (`ncmd.split()[3]`) plus `".delta"` or
`".filter"`; in recovery mode test membership of the basename in
`existingfiles` (a membership test on `None` raises `TypeError`), skipping
job construction on a hit. -/
def generate_joblist_aux (args : Args) (ext : Ext)
    (existingfiles : Option (List String)) (idx : Nat) :
    List (GenomeR × GenomeR) → Except PyError (List ComparisonJobR)
  | [] => .ok []
  | (query, subject) :: rest =>
    let ncmd := (ext.cmds query subject).1
    let dcmd := (ext.cmds query subject).2
    let outfname := expectedOutfile args ext query subject
    if args.recovery then
      match existingfiles with
      | none => .error .typeError
      | some fs =>
        if pathBasename outfname ∈ fs then
          generate_joblist_aux args ext existingfiles (idx + 1) rest
        else
          match generate_joblist_aux args ext existingfiles (idx + 1) rest with
          | .error e => .error e
          | .ok js =>
            .ok (buildComparisonJob args idx query subject ncmd dcmd outfname :: js)
    else
      match generate_joblist_aux args ext existingfiles (idx + 1) rest with
      | .error e => .error e
      | .ok js =>
        .ok (buildComparisonJob args idx query subject ncmd dcmd outfname :: js)

/-- The function `generate_joblist(comparisons, existingfiles, args, logger)`. -/
def generate_joblist (comparisons : List (GenomeR × GenomeR))
    (existingfiles : Option (List String)) (args : Args) (ext : Ext) :
    Except PyError (List ComparisonJobR) :=
  generate_joblist_aux args ext existingfiles 0 comparisons

/- ### Execution Dispatcher (`run_anim_jobs`) -/

/-- The function `run_anim_jobs`: with the multiprocessing scheduler, a positive
cumulative value from `run_dependency_graph` raises `PyaniException`;
otherwise, and on the SGE path, the call returns normally. -/
def run_anim_jobs (joblist : List ComparisonJobR) (args : Args) (ext : Ext) :
    Except PyError Unit :=
  if args.scheduler = "multiprocessing" then
    let cumval := ext.runDepGraph (joblist.map (fun j => j.job))
    if 0 < cumval then .error .pyaniException else .ok ()
  else .ok ()

/- ### Result Ingestor (`update_comparison_results`) -/

/-- One iteration of the ingestion loop: parse the job's output file, then
compute `qcov = aln_length / query.length`, `scov = aln_length /
subject.length`, `pid = 1 - sim_errs / aln_length` — each a Python true
division, raising `ZeroDivisionError` on a zero divisor — and build the
Comparison row. -/
def ingestJob (nucmer_version : String) (args : Args) (ext : Ext)
    (job : ComparisonJobR) : Except PyError ComparisonR :=
  if job.query.length = 0 then .error .zeroDivisionError
  else if job.subject.length = 0 then .error .zeroDivisionError
  else if (ext.parse job.outfile).1 = 0 then .error .zeroDivisionError
  else
    .ok
      { query_id := job.query.genome_id
        subject_id := job.subject.genome_id
        aln_length := (ext.parse job.outfile).1
        sim_errs := (ext.parse job.outfile).2
        identity := 1 - ((ext.parse job.outfile).2 : ℚ) / ((ext.parse job.outfile).1 : ℚ)
        cov_query := ((ext.parse job.outfile).1 : ℚ) / (job.query.length : ℚ)
        cov_subject := ((ext.parse job.outfile).1 : ℚ) / (job.subject.length : ℚ)
        program := "nucmer"
        version := nucmer_version
        fragsize := none
        maxmatch := args.maxmatch }

/-- The function `update_comparison_results(joblist, run, session, nucmer_version, args,
logger)`: appends one Comparison per job to the run's collection `acc`,
propagating the first per-job fault out of the loop. -/
def update_comparison_results (nucmer_version : String) (args : Args)
    (ext : Ext) :
    List ComparisonJobR → List ComparisonR → Except PyError (List ComparisonR)
  | [], acc => .ok acc
  | job :: rest, acc =>
    match ingestJob nucmer_version args ext job with
    | .error e => .error e
    | .ok c => update_comparison_results nucmer_version args ext rest (acc ++ [c])

/- ### Matrix Synthesizer (`update_comparison_matrices`) -/

/-- A run matrix cell store: genome id × genome id → value, `none` for the
NaN cells of the freshly created float DataFrames. -/
def Mat := Nat → Nat → Option ℚ

/-- Model of `df.loc[i, j] = v`. -/
def matSet (m : Mat) (i j : Nat) (v : ℚ) : Mat :=
  fun a b => if a = i ∧ b = j then some v else m a b

/-- The two consecutive `.loc` assignments a comparison makes to one
matrix: `[q, s] = vqs` then `[s, q] = vsq`. -/
def matSetPair (m : Mat) (q s : Nat) (vqs vsq : ℚ) : Mat :=
  matSet (matSet m q s vqs) s q vsq

/-- The five run matrices, all indexed on both axes by `index`. -/
structure MatrixSet where
  index : List Nat
  identity : Mat
  coverage : Mat
  alnlength : Mat
  simerrors : Mat
  hadamard : Mat

/-- Model of `np.fill_diagonal(df.values, 1.0)` on a NaN frame indexed by `ids`:
cell `(g, g)` is `1.0` for each `g ∈ ids`, all other cells NaN. -/
def diagOnes (ids : List Nat) : Mat :=
  fun i j => if i = j ∧ i ∈ ids then some 1 else none

/-- The loop `for genome in run.genomes.all():
df_alnlength.loc[gid, gid] = genome.length` over a NaN frame. -/
def alnlenDiagAux (m : Mat) : List GenomeR → Mat
  | [] => m
  | g :: rest => alnlenDiagAux (matSet m g.genome_id g.genome_id (g.length : ℚ)) rest

/-- One iteration of the comparison loop: the ten `.loc` assignments for
`cmp`, to the five matrices. -/
def applyComp (M : MatrixSet) (c : ComparisonR) : MatrixSet :=
  { M with
    identity := matSetPair M.identity c.query_id c.subject_id c.identity c.identity
    coverage := matSetPair M.coverage c.query_id c.subject_id c.cov_query c.cov_subject
    alnlength := matSetPair M.alnlength c.query_id c.subject_id
      (c.aln_length : ℚ) (c.aln_length : ℚ)
    simerrors := matSetPair M.simerrors c.query_id c.subject_id
      (c.sim_errs : ℚ) (c.sim_errs : ℚ)
    hadamard := matSetPair M.hadamard c.query_id c.subject_id
      (c.identity * c.cov_query) (c.identity * c.cov_subject) }

/-- Model of `genome_ids = sorted([_.genome_id for _ in run.genomes.all()])`. -/
def sortedGenomeIds (genomes : List GenomeR) : List Nat :=
  (genomes.map (fun g => g.genome_id)).insertionSort (· ≤ ·)

/-- The five freshly created DataFrames after the diagonal-filling phase:
indexed by the sorted genome ids, 1.0 diagonals for identity, coverage,
simerrors and hadamard, the genome's own length on the alnlength
diagonal. -/
def initialMatrices (genomes : List GenomeR) : MatrixSet :=
  { index := sortedGenomeIds genomes
    identity := diagOnes (sortedGenomeIds genomes)
    coverage := diagOnes (sortedGenomeIds genomes)
    alnlength := alnlenDiagAux (fun _ _ => none) genomes
    simerrors := diagOnes (sortedGenomeIds genomes)
    hadamard := diagOnes (sortedGenomeIds genomes) }

/-- The function `update_comparison_matrices(run, session, args, logger)`: the diagonal
phase followed by one pass over the run's comparisons. -/
def update_comparison_matrices (genomes : List GenomeR)
    (comps : List ComparisonR) : MatrixSet :=
  comps.foldl applyComp (initialMatrices genomes)

/- ### The orchestrator (`subcmd_anim`, from the dedup step on) -/

/-- The run-scoped state the core updates: the Run's comparison collection
and its serialised matrix fields (`none` until the synthesizer commits
them). -/
structure RunState where
  comparisons : List ComparisonR
  matrices : Option MatrixSet

/-- The function `subcmd_anim` from the existing-comparison check on (lines 187–257),
with the earlier steps (database connection, run/genome registration,
directory creation) behind it. Returns the final run state together with
the fault, if any, that aborted the pipeline at that state:

1. candidate pairs = all 2-combinations of the run's genomes;
2. dedup against the store-wide comparison map;
3. if nothing is left to run, synthesise matrices and return;
4. in recovery mode, call `collect_existing_output(deltadir, args)`
   (two arguments for three required parameters);
5. build the joblist, dispatch it, ingest results, synthesise matrices. -/
def subcmd_anim_core (genomes : List GenomeR) (store : List ComparisonR)
    (nucmer_version : String) (args : Args) (ext : Ext) :
    RunState × Option PyError :=
  let pairs := pairCombinations genomes
  let emap := buildExistingMap store
  let dres := dedupComparisons emap nucmer_version args.maxmatch pairs
  let st : RunState := { comparisons := dres.1, matrices := none }
  if dres.2 = [] then
    ({ st with matrices := some (update_comparison_matrices genomes st.comparisons) },
      none)
  else
    match (if args.recovery then collectCallInSubcmd args ext else .ok none) with
    | .error e => (st, some e)
    | .ok existingfiles =>
      match generate_joblist dres.2 existingfiles args ext with
      | .error e => (st, some e)
      | .ok joblist =>
        match run_anim_jobs joblist args ext with
        | .error e => (st, some e)
        | .ok _ =>
          match update_comparison_results nucmer_version args ext joblist
              st.comparisons with
          | .error e => (st, some e)
          | .ok comps =>
            ({ comparisons := comps
               matrices := some (update_comparison_matrices genomes comps) },
              none)

/- ### Concrete fixtures (spec §8 scenario 6 data) used by witnesses -/

/-- Genome A of the spec's scenario: id 1, length 5,000,000. -/
def gA : GenomeR := ⟨1, "A.fna", 5000000, "genome A"⟩

/-- Genome B of the spec's scenario: id 2, length 4,800,000. -/
def gB : GenomeR := ⟨2, "B.fna", 4800000, "genome B"⟩

/-- Genome C of the spec's scenario: id 3, length 5,200,000. -/
def gC : GenomeR := ⟨3, "C.fna", 5200000, "genome C"⟩

/-- A stored Comparison keyed `(1, 2, "nucmer", "3.1", none, false)`
(numeric fields chosen as integral rationals so witnesses evaluate). -/
def cAB : ComparisonR :=
  ⟨1, 2, 4000000, 40000, 1, 1, 1, "nucmer", "3.1", none, false⟩

/-- Baseline arguments: multiprocessing scheduler, filtering on, no
recovery, maxmatch off. -/
def args0 : Args := ⟨false, false, false, "multiprocessing", "job"⟩

/-- Baseline externals: well-formed nucmer command lines, a clean executor,
a parser reporting a 1,000,000-base alignment with 5,000 errors. -/
def ext0 : Ext :=
  { cmds := fun q s =>
      ("nucmer --mum -p nucmer_output/" ++ q.path ++ "_vs_" ++ s.path ++ " "
         ++ q.path ++ " " ++ s.path,
       "delta_filter_wrapper.py " ++ q.path ++ "_vs_" ++ s.path)
    runDepGraph := fun _ => 0
    parse := fun _ => (1000000, 5000)
    listing := [] }

/-- Externals whose parser reports a zero-length alignment. -/
def extZero : Ext := { ext0 with parse := fun _ => (0, 0) }

/-- A concrete `ComparisonJob` for the pair (A, B). -/
def jobAB : ComparisonJobR :=
  buildComparisonJob args0 0 gA gB (ext0.cmds gA gB).1 (ext0.cmds gA gB).2
    (expectedOutfile args0 ext0 gA gB)

/- ### Dictionary and dedup lemmas -/

theorem dictFind_dictRemove_ne (k k0 : CmpKey) (h : k ≠ k0)
    (l : List (CmpKey × ComparisonR)) :
    dictFind k (dictRemove k0 l) = dictFind k l := by
  induction l with
  | nil => rfl
  | cons kv rest ih =>
    by_cases hk : kv.1 = k0
    · have hkv : kv.1 ≠ k := fun he => h (he ▸ hk)
      simp [dictRemove, dictFind, hk, hkv, ih, Ne.symm h]
    · simp only [dictRemove, if_neg hk, dictFind]
      by_cases hkk : kv.1 = k
      · simp [hkk]
      · simp [hkk, ih]

theorem dictFind_buildExistingMap_some {store : List ComparisonR} {k : CmpKey}
    {c : ComparisonR} (h : dictFind k (buildExistingMap store) = some c) :
    c ∈ store ∧ comparisonKey c = k := by
  induction store with
  | nil => simp [buildExistingMap, dictFind] at h
  | cons c0 rest ih =>
    simp only [buildExistingMap, dictInsert, dictFind] at h
    by_cases hk : comparisonKey c0 = k
    · rw [if_pos hk] at h
      obtain rfl : c0 = c := by injection h
      exact ⟨List.mem_cons_self _ _, hk⟩
    · rw [if_neg hk, dictFind_dictRemove_ne k (comparisonKey c0) (fun he => hk he.symm)] at h
      obtain ⟨h1, h2⟩ := ih h
      exact ⟨List.mem_cons_of_mem _ h1, h2⟩

theorem dictFind_buildExistingMap_mem {store : List ComparisonR}
    {c : ComparisonR} (h : c ∈ store) :
    dictFind (comparisonKey c) (buildExistingMap store) ≠ none := by
  induction store with
  | nil => simp at h
  | cons c0 rest ih =>
    simp only [buildExistingMap, dictInsert, dictFind]
    by_cases hk : comparisonKey c0 = comparisonKey c
    · rw [if_pos hk]; simp
    · rw [if_neg hk,
        dictFind_dictRemove_ne (comparisonKey c) (comparisonKey c0) (fun he => hk he.symm)]
      rcases List.mem_cons.mp h with rfl | hrest
      · exact absurd rfl hk
      · exact ih hrest

theorem dedup_mem_torun {emap : List (CmpKey × ComparisonR)} {v : String}
    {mm : Bool} {pairs : List (GenomeR × GenomeR)} {p : GenomeR × GenomeR}
    (h : p ∈ (dedupComparisons emap v mm pairs).2) :
    dictFind (lookupKey p.1 p.2 v mm) emap = none ∧ p ∈ pairs := by
  induction pairs with
  | nil => simp [dedupComparisons] at h
  | cons hd tl ih =>
    obtain ⟨q, s⟩ := hd
    simp only [dedupComparisons] at h
    cases hfind : dictFind (lookupKey q s v mm) emap with
    | some c =>
      rw [hfind] at h
      obtain ⟨h1, h2⟩ := ih h
      exact ⟨h1, List.mem_cons_of_mem _ h2⟩
    | none =>
      rw [hfind] at h
      rcases List.mem_cons.mp h with rfl | hmem
      · exact ⟨hfind, List.mem_cons_self _ _⟩
      · obtain ⟨h1, h2⟩ := ih hmem
        exact ⟨h1, List.mem_cons_of_mem _ h2⟩

theorem dedup_hit_mem {emap : List (CmpKey × ComparisonR)} {v : String}
    {mm : Bool} {pairs : List (GenomeR × GenomeR)} {q s : GenomeR}
    {c : ComparisonR} (hp : (q, s) ∈ pairs)
    (h : dictFind (lookupKey q s v mm) emap = some c) :
    c ∈ (dedupComparisons emap v mm pairs).1 := by
  induction pairs with
  | nil => simp at hp
  | cons hd tl ih =>
    obtain ⟨q0, s0⟩ := hd
    simp only [dedupComparisons]
    rcases List.mem_cons.mp hp with heq | hmem
    · obtain ⟨rfl, rfl⟩ := Prod.mk.inj heq
      rw [h]
      exact List.mem_cons_self _ _
    · cases hfind : dictFind (lookupKey q0 s0 v mm) emap with
      | some c0 => exact List.mem_cons_of_mem _ (ih hmem)
      | none => exact ih hmem

theorem dedup_miss_mem {emap : List (CmpKey × ComparisonR)} {v : String}
    {mm : Bool} {pairs : List (GenomeR × GenomeR)} {q s : GenomeR}
    (hp : (q, s) ∈ pairs)
    (h : dictFind (lookupKey q s v mm) emap = none) :
    (q, s) ∈ (dedupComparisons emap v mm pairs).2 := by
  induction pairs with
  | nil => simp at hp
  | cons hd tl ih =>
    obtain ⟨q0, s0⟩ := hd
    simp only [dedupComparisons]
    rcases List.mem_cons.mp hp with heq | hmem
    · obtain ⟨rfl, rfl⟩ := Prod.mk.inj heq
      rw [h]
      exact List.mem_cons_self _ _
    · cases hfind : dictFind (lookupKey q0 s0 v mm) emap with
      | some c0 => exact ih hmem
      | none => exact List.mem_cons_of_mem _ (ih hmem)

theorem dedup_appended_mem {emap : List (CmpKey × ComparisonR)} {v : String}
    {mm : Bool} {pairs : List (GenomeR × GenomeR)} {c : ComparisonR}
    (h : c ∈ (dedupComparisons emap v mm pairs).1) :
    ∃ k, dictFind k emap = some c := by
  induction pairs with
  | nil => simp [dedupComparisons] at h
  | cons hd tl ih =>
    obtain ⟨q, s⟩ := hd
    simp only [dedupComparisons] at h
    cases hfind : dictFind (lookupKey q s v mm) emap with
    | some c0 =>
      rw [hfind] at h
      rcases List.mem_cons.mp h with rfl | hmem
      · exact ⟨_, hfind⟩
      · exact ih hmem
    | none =>
      rw [hfind] at h
      exact ih h

theorem dedup_all_hit {emap : List (CmpKey × ComparisonR)} {v : String}
    {mm : Bool} {pairs : List (GenomeR × GenomeR)}
    (h : ∀ p ∈ pairs, dictFind (lookupKey p.1 p.2 v mm) emap ≠ none) :
    (dedupComparisons emap v mm pairs).2 = [] := by
  induction pairs with
  | nil => rfl
  | cons hd tl ih =>
    obtain ⟨q, s⟩ := hd
    simp only [dedupComparisons]
    cases hfind : dictFind (lookupKey q s v mm) emap with
    | some c0 => exact ih (fun p hp => h p (List.mem_cons_of_mem _ hp))
    | none => exact absurd hfind (h (q, s) (List.mem_cons_self _ _))

/- ### Claim theorems C1–C3 -/

/-- C1: for a job whose parsed output yields alignment length 0,
`update_comparison_results` propagates a `ZeroDivisionError` from
`pid = 1 - sim_errs / aln_length` instead of recording the comparison with
a fallback identity/coverage of 0.0: the loop aborts with the fault and no
Comparison is appended. -/
theorem C1_zero_alignment_propagates_division_fault :
    jobAB.query.length ≠ 0 ∧ jobAB.subject.length ≠ 0 ∧
    (extZero.parse jobAB.outfile).1 = 0 ∧
    update_comparison_results "3.1" args0 extZero [jobAB] [] =
      .error .zeroDivisionError := by
  refine ⟨by decide, by decide, rfl, ?_⟩
  rfl

/-- C2: `collect_existing_output` computes the list of filenames whose
extension matches the expected suffix but, having no return statement,
returns `None` rather than that collection. -/
theorem C2_collect_existing_output_returns_none :
    collect_existing_output ["x.filter", "y.delta"] args0 = none ∧
    collect_existing_output_body ["x.filter", "y.delta"] args0 = ["x.filter"] := by
  constructor
  · rfl
  · rfl

/-- C3: the dedup step looks each candidate pair's composite key
`(q.genome_id, s.genome_id, "nucmer", version, none, maxmatch)` up in the
map of all stored Comparisons; on a hit the stored Comparison is appended
to the run's collection and the pair is excluded from the work set, and on
a miss the pair enters the work set. -/
theorem C3_dedup_reuses_known_keys (store : List ComparisonR)
    (version : String) (maxmatch : Bool) (pairs : List (GenomeR × GenomeR))
    (q s : GenomeR) (hp : (q, s) ∈ pairs) :
    (∀ c, dictFind (lookupKey q s version maxmatch) (buildExistingMap store) = some c →
      c ∈ (dedupComparisons (buildExistingMap store) version maxmatch pairs).1 ∧
      (q, s) ∉ (dedupComparisons (buildExistingMap store) version maxmatch pairs).2) ∧
    (dictFind (lookupKey q s version maxmatch) (buildExistingMap store) = none →
      (q, s) ∈ (dedupComparisons (buildExistingMap store) version maxmatch pairs).2) := by
  constructor
  · intro c hc
    refine ⟨dedup_hit_mem hp hc, fun hmem => ?_⟩
    have := (dedup_mem_torun hmem).1
    rw [this] at hc
    exact Option.noConfusion hc
  · intro hnone
    exact dedup_miss_mem hp hnone

/-- Witness for C3 at the scenario data: the stored (A, B) comparison is
reused and the (A, B) pair is excluded from the work set. -/
theorem C3_witness :
    (gA, gB) ∈ pairCombinations [gA, gB, gC] ∧
    cAB ∈ (dedupComparisons (buildExistingMap [cAB]) "3.1" false
      (pairCombinations [gA, gB, gC])).1 ∧
    (gA, gB) ∉ (dedupComparisons (buildExistingMap [cAB]) "3.1" false
      (pairCombinations [gA, gB, gC])).2 := by
  have h := C3_dedup_reuses_known_keys [cAB] "3.1" false
    (pairCombinations [gA, gB, gC]) gA gB (by decide)
  exact ⟨by decide, (h.1 cAB (by decide)).1, (h.1 cAB (by decide)).2⟩

/- ### Claim theorems C9, C10, C4: pipeline control flow -/

/-- C9 counterexample: with genomes A, B and the (A, B) comparison already
stored, the deduplicated work set is empty, yet `subcmd_anim` returns
normally (fault component `none`) — it does not signal fatal failure. -/
theorem C9_counterexample :
    (dedupComparisons (buildExistingMap [cAB]) "3.1" false
      (pairCombinations [gA, gB])).2 = [] ∧
    (subcmd_anim_core [gA, gB] [cAB] "3.1" args0 ext0).2 = none := by
  exact ⟨by decide, rfl⟩

/-- C9 amended: when the deduplicated work set is empty, `subcmd_anim`
updates the run's summary matrices from the reused results and returns
normally, with no fatal signal. -/
theorem C9_empty_workset_returns_normally (genomes : List GenomeR)
    (store : List ComparisonR) (v : String) (args : Args) (ext : Ext)
    (h : (dedupComparisons (buildExistingMap store) v args.maxmatch
      (pairCombinations genomes)).2 = []) :
    subcmd_anim_core genomes store v args ext =
      ({ comparisons := (dedupComparisons (buildExistingMap store) v args.maxmatch
            (pairCombinations genomes)).1
         matrices := some (update_comparison_matrices genomes
            (dedupComparisons (buildExistingMap store) v args.maxmatch
              (pairCombinations genomes)).1) }, none) := by
  unfold subcmd_anim_core
  rw [if_pos h]

/-- Witness for C9's amended claim at the two-genome fixture. -/
theorem C9_witness :
    subcmd_anim_core [gA, gB] [cAB] "3.1" args0 ext0 =
      ({ comparisons := (dedupComparisons (buildExistingMap [cAB]) "3.1" false
            (pairCombinations [gA, gB])).1
         matrices := some (update_comparison_matrices [gA, gB]
            (dedupComparisons (buildExistingMap [cAB]) "3.1" false
              (pairCombinations [gA, gB])).1) }, none) :=
  C9_empty_workset_returns_normally [gA, gB] [cAB] "3.1" args0 ext0 (by decide)

/-- C10: with the recovery flag set and a non-empty work set, the call
`collect_existing_output(deltadir, args)` supplies two arguments to a
three-parameter function, so `subcmd_anim` raises `TypeError` with the run
state untouched — no job is built, dispatched or ingested and the matrices
are never written. -/
theorem C10_recovery_always_raises_typeerror (genomes : List GenomeR)
    (store : List ComparisonR) (v : String) (args : Args) (ext : Ext)
    (hrec : args.recovery = true)
    (hne : (dedupComparisons (buildExistingMap store) v args.maxmatch
      (pairCombinations genomes)).2 ≠ []) :
    collect_existing_output_callsite_args < collect_existing_output_required_args ∧
    collectCallInSubcmd args ext = .error .typeError ∧
    subcmd_anim_core genomes store v args ext =
      ({ comparisons := (dedupComparisons (buildExistingMap store) v args.maxmatch
            (pairCombinations genomes)).1
         matrices := none }, some .typeError) := by
  refine ⟨by decide, rfl, ?_⟩
  unfold subcmd_anim_core
  rw [if_neg hne, hrec]
  rfl

/-- Witness for C10: genomes A, B, C with only (A, B) stored and recovery
on: the run aborts with `TypeError`. -/
theorem C10_witness :
    subcmd_anim_core [gA, gB, gC] [cAB] "3.1"
      { args0 with recovery := true } ext0 =
      ({ comparisons := (dedupComparisons (buildExistingMap [cAB]) "3.1" false
            (pairCombinations [gA, gB, gC])).1
         matrices := none }, some .typeError) :=
  (C10_recovery_always_raises_typeerror [gA, gB, gC] [cAB] "3.1"
    { args0 with recovery := true } ext0 rfl (by decide)).2.2

/-- C4: when the multiprocessing executor reports a non-zero cumulative
failure value for the dispatched graph, `subcmd_anim` aborts with
`PyaniException` before ingestion: no new Comparison is appended beyond
the deduplication reuses and the Run's matrix fields stay in their pre-run
state. -/
theorem C4_dispatch_failure_blocks_ingestion (genomes : List GenomeR)
    (store : List ComparisonR) (v : String) (args : Args) (ext : Ext)
    (js : List ComparisonJobR)
    (hsched : args.scheduler = "multiprocessing")
    (hrec : args.recovery = false)
    (hne : (dedupComparisons (buildExistingMap store) v args.maxmatch
      (pairCombinations genomes)).2 ≠ [])
    (hjs : generate_joblist (dedupComparisons (buildExistingMap store) v
      args.maxmatch (pairCombinations genomes)).2 none args ext = .ok js)
    (hfail : 0 < ext.runDepGraph (js.map (fun j => j.job))) :
    subcmd_anim_core genomes store v args ext =
      ({ comparisons := (dedupComparisons (buildExistingMap store) v args.maxmatch
            (pairCombinations genomes)).1
         matrices := none }, some .pyaniException) := by
  unfold subcmd_anim_core
  rw [if_neg hne, hrec]
  show (match generate_joblist _ none args ext with
    | .error e => _
    | .ok joblist => _) = _
  rw [hjs]
  show (match run_anim_jobs js args ext with
    | .error e => _
    | .ok _ => _) = _
  unfold run_anim_jobs
  rw [if_pos hsched, if_pos hfail]

/-- Externals whose executor reports two failed nodes. -/
def extFail : Ext := { ext0 with runDepGraph := fun _ => 2 }

/-- Witness for C4: genomes A, B, C with (A, B) stored and a failing
executor: the run aborts with `PyaniException` and an untouched state. -/
theorem C4_witness :
    subcmd_anim_core [gA, gB, gC] [cAB] "3.1" args0 extFail =
      ({ comparisons := (dedupComparisons (buildExistingMap [cAB]) "3.1" false
            (pairCombinations [gA, gB, gC])).1
         matrices := none }, some .pyaniException) :=
  C4_dispatch_failure_blocks_ingestion [gA, gB, gC] [cAB] "3.1" args0 extFail
    _ rfl rfl (by decide) rfl (by decide)

/- ### Ingestion lemmas and claims C6, C7 -/

theorem ingestJob_ok_fields {v : String} {args : Args} {ext : Ext}
    {j : ComparisonJobR} {c : ComparisonR}
    (h : ingestJob v args ext j = .ok c) :
    c.query_id = j.query.genome_id ∧ c.subject_id = j.subject.genome_id ∧
    c.program = "nucmer" ∧ c.version = v ∧ c.fragsize = none ∧
    c.maxmatch = args.maxmatch := by
  unfold ingestJob at h
  split at h
  · exact absurd h (by simp)
  · split at h
    · exact absurd h (by simp)
    · split at h
      · exact absurd h (by simp)
      · obtain rfl : _ = c := by injection h
        exact ⟨rfl, rfl, rfl, rfl, rfl, rfl⟩

theorem ingestJob_ok_key {v : String} {args : Args} {ext : Ext}
    {j : ComparisonJobR} {c : ComparisonR}
    (h : ingestJob v args ext j = .ok c) :
    comparisonKey c = lookupKey j.query j.subject v args.maxmatch := by
  obtain ⟨h1, h2, h3, h4, h5, h6⟩ := ingestJob_ok_fields h
  simp [comparisonKey, lookupKey, h1, h2, h3, h4, h5, h6]

/-- Every Comparison in a successful ingestion result either was already in
the run's collection or originates from a job in the joblist. -/
theorem update_results_sources {v : String} {args : Args} {ext : Ext}
    {js : List ComparisonJobR} {acc res : List ComparisonR}
    (h : update_comparison_results v args ext js acc = .ok res) :
    ∀ c ∈ res, c ∈ acc ∨ ∃ j ∈ js, ingestJob v args ext j = .ok c := by
  induction js generalizing acc with
  | nil =>
    obtain rfl : acc = res := by injection h
    exact fun c hc => .inl hc
  | cons j rest ih =>
    rw [update_comparison_results] at h
    cases hing : ingestJob v args ext j with
    | error e => rw [hing] at h; exact absurd h (by simp)
    | ok c0 =>
      rw [hing] at h
      intro c hc
      rcases ih h c hc with hmem | ⟨j', hj', hj'c⟩
      · rcases List.mem_append.mp hmem with ha | hb
        · exact .inl ha
        · obtain rfl : c = c0 := by simpa using hb
          exact .inr ⟨j, List.mem_cons_self .., hing⟩
      · exact .inr ⟨j', List.mem_cons_of_mem _ hj', hj'c⟩

/-- A successful ingestion keeps everything already in the run's
collection. -/
theorem update_results_keeps_acc {v : String} {args : Args} {ext : Ext}
    {js : List ComparisonJobR} {acc res : List ComparisonR}
    (h : update_comparison_results v args ext js acc = .ok res) :
    ∀ c ∈ acc, c ∈ res := by
  induction js generalizing acc with
  | nil =>
    obtain rfl : acc = res := by injection h
    exact fun c hc => hc
  | cons j rest ih =>
    rw [update_comparison_results] at h
    cases hing : ingestJob v args ext j with
    | error e => rw [hing] at h; exact absurd h (by simp)
    | ok c0 =>
      rw [hing] at h
      exact fun c hc => ih h c (List.mem_append.mpr (.inl hc))

/-- A successful ingestion covers every job: some result Comparison carries
that job's composite key. -/
theorem update_results_covers {v : String} {args : Args} {ext : Ext}
    {js : List ComparisonJobR} {acc res : List ComparisonR}
    (h : update_comparison_results v args ext js acc = .ok res) :
    ∀ j ∈ js, ∃ c ∈ res,
      comparisonKey c = lookupKey j.query j.subject v args.maxmatch := by
  induction js generalizing acc with
  | nil => intro j hj; simp at hj
  | cons j0 rest ih =>
    rw [update_comparison_results] at h
    cases hing : ingestJob v args ext j0 with
    | error e => rw [hing] at h; exact absurd h (by simp)
    | ok c0 =>
      rw [hing] at h
      intro j hj
      rcases List.mem_cons.mp hj with rfl | hmem
      · exact ⟨c0, update_results_keeps_acc h c0 (by simp), ingestJob_ok_key hing⟩
      · exact ih h j hmem

/-- C6: for every job whose parse yields a non-zero alignment length (and
genomes of non-zero length), `update_comparison_results` appends a
Comparison with `qcov = aln_length / query.length`,
`scov = aln_length / subject.length`, `pid = 1 - sim_errs / aln_length`,
program `"nucmer"`, the resolved nucmer version, null fragsize and the
configured maxmatch flag, for the job's query and subject genomes. -/
theorem C6_ingestion_formulas (v : String) (args : Args) (ext : Ext)
    (joblist : List ComparisonJobR) (acc : List ComparisonR)
    (h : ∀ j ∈ joblist, j.query.length ≠ 0 ∧ j.subject.length ≠ 0 ∧
      (ext.parse j.outfile).1 ≠ 0) :
    update_comparison_results v args ext joblist acc =
      .ok (acc ++ joblist.map (fun j =>
        { query_id := j.query.genome_id
          subject_id := j.subject.genome_id
          aln_length := (ext.parse j.outfile).1
          sim_errs := (ext.parse j.outfile).2
          identity := 1 - ((ext.parse j.outfile).2 : ℚ) / ((ext.parse j.outfile).1 : ℚ)
          cov_query := ((ext.parse j.outfile).1 : ℚ) / (j.query.length : ℚ)
          cov_subject := ((ext.parse j.outfile).1 : ℚ) / (j.subject.length : ℚ)
          program := "nucmer"
          version := v
          fragsize := none
          maxmatch := args.maxmatch })) := by
  induction joblist generalizing acc with
  | nil => simp [update_comparison_results]
  | cons j rest ih =>
    obtain ⟨h1, h2, h3⟩ := h j (List.mem_cons_self ..)
    rw [update_comparison_results]
    have hing : ingestJob v args ext j = .ok
        { query_id := j.query.genome_id
          subject_id := j.subject.genome_id
          aln_length := (ext.parse j.outfile).1
          sim_errs := (ext.parse j.outfile).2
          identity := 1 - ((ext.parse j.outfile).2 : ℚ) / ((ext.parse j.outfile).1 : ℚ)
          cov_query := ((ext.parse j.outfile).1 : ℚ) / (j.query.length : ℚ)
          cov_subject := ((ext.parse j.outfile).1 : ℚ) / (j.subject.length : ℚ)
          program := "nucmer"
          version := v
          fragsize := none
          maxmatch := args.maxmatch } := by
      unfold ingestJob
      rw [if_neg h1, if_neg h2, if_neg h3]
    rw [hing]
    dsimp only
    rw [ih _ (fun j' hj' => h j' (List.mem_cons_of_mem _ hj'))]
    simp [List.append_assoc]

/-- Witness for C6: the single (A, B) job at the baseline externals. -/
theorem C6_witness :
    update_comparison_results "3.1" args0 ext0 [jobAB] [] =
      .ok ([] ++ [jobAB].map (fun j =>
        { query_id := j.query.genome_id
          subject_id := j.subject.genome_id
          aln_length := (ext0.parse j.outfile).1
          sim_errs := (ext0.parse j.outfile).2
          identity := 1 - ((ext0.parse j.outfile).2 : ℚ) / ((ext0.parse j.outfile).1 : ℚ)
          cov_query := ((ext0.parse j.outfile).1 : ℚ) / (j.query.length : ℚ)
          cov_subject := ((ext0.parse j.outfile).1 : ℚ) / (j.subject.length : ℚ)
          program := "nucmer"
          version := "3.1"
          fragsize := none
          maxmatch := args0.maxmatch })) :=
  C6_ingestion_formulas "3.1" args0 ext0 [jobAB] [] (by decide)

/-- In recovery mode, every job that `generate_joblist` emits has an
expected output whose basename is not among the existing files. -/
theorem genjob_recovery_skips {args : Args} {ext : Ext} {fs : List String}
    {idx : Nat} {pairs : List (GenomeR × GenomeR)} {js : List ComparisonJobR}
    (hrec : args.recovery = true)
    (h : generate_joblist_aux args ext (some fs) idx pairs = .ok js) :
    ∀ j ∈ js, pathBasename (expectedOutfile args ext j.query j.subject) ∉ fs := by
  induction pairs generalizing idx js with
  | nil =>
    obtain rfl : ([] : List ComparisonJobR) = js := by
      rw [generate_joblist_aux] at h; injection h
    intro j hj; simp at hj
  | cons hd tl ih =>
    obtain ⟨q, s⟩ := hd
    rw [generate_joblist_aux, hrec] at h
    simp only [if_true] at h
    by_cases hb : pathBasename (expectedOutfile args ext q s) ∈ fs
    · rw [if_pos hb] at h
      exact ih h
    · rw [if_neg hb] at h
      cases haux : generate_joblist_aux args ext (some fs) (idx + 1) tl with
      | error e => rw [haux] at h; exact absurd h (by simp)
      | ok js' =>
        rw [haux] at h
        obtain rfl : _ = js := by injection h
        intro j hj
        rcases List.mem_cons.mp hj with rfl | hmem
        · exact hb
        · exact ih haux j hmem

/-- C7: in recovery mode, a pair whose expected output basename is among
the existing files gets no ComparisonJob (hence no dependency nodes), and
since ingestion only draws from the emitted joblist, no Comparison is
ingested for that pair in this invocation. -/
theorem C7_recovery_hit_skips_job_and_ingestion (args : Args) (ext : Ext)
    (fs : List String) (pairs : List (GenomeR × GenomeR))
    (js : List ComparisonJobR) (q s : GenomeR) (v : String)
    (acc res : List ComparisonR)
    (hrec : args.recovery = true)
    (hjs : generate_joblist pairs (some fs) args ext = .ok js)
    (hhit : pathBasename (expectedOutfile args ext q s) ∈ fs) :
    (∀ j ∈ js, ¬(j.query = q ∧ j.subject = s)) ∧
    (update_comparison_results v args ext js acc = .ok res →
      ∀ c ∈ res, c ∈ acc ∨
        ∃ j ∈ js, ingestJob v args ext j = .ok c ∧
          ¬(j.query = q ∧ j.subject = s)) := by
  have hskip := genjob_recovery_skips hrec hjs
  have hnotpair : ∀ j ∈ js, ¬(j.query = q ∧ j.subject = s) := by
    intro j hj ⟨hq, hs⟩
    exact hskip j hj (hq ▸ hs ▸ hhit)
  refine ⟨hnotpair, fun hupd c hc => ?_⟩
  rcases update_results_sources hupd c hc with hmem | ⟨j, hj, hjc⟩
  · exact .inl hmem
  · exact .inr ⟨j, hj, hjc, hnotpair j hj⟩

/- ### C7 witness fixtures -/

/-- Recovery-mode arguments. -/
def argsRec : Args := { args0 with recovery := true }

/-- Existing-output collection holding exactly the (A, B) output's
basename. -/
def fsAB : List String := [pathBasename (expectedOutfile argsRec ext0 gA gB)]

/-- The joblist `generate_joblist` emits for pairs (A, B), (A, C) when the
(A, B) output already exists: only the (A, C) job, at enumerate index 1. -/
def jsRec : List ComparisonJobR :=
  [buildComparisonJob argsRec 1 gA gC (ext0.cmds gA gC).1 (ext0.cmds gA gC).2
    (expectedOutfile argsRec ext0 gA gC)]

/-- The Comparison the (A, C) job ingests at the baseline externals. -/
def cACrec : ComparisonR :=
  { query_id := 1
    subject_id := 3
    aln_length := 1000000
    sim_errs := 5000
    identity := 1 - (5000 : ℚ) / 1000000
    cov_query := (1000000 : ℚ) / 5000000
    cov_subject := (1000000 : ℚ) / 5200000
    program := "nucmer"
    version := "3.1"
    fragsize := none
    maxmatch := false }

/-- Witness for C7: with the (A, B) output on disk, the emitted joblist
holds no (A, B) job and every ingested Comparison comes from a non-(A, B)
job. -/
theorem C7_witness :
    generate_joblist [(gA, gB), (gA, gC)] (some fsAB) argsRec ext0 = .ok jsRec ∧
    (∀ j ∈ jsRec, ¬(j.query = gA ∧ j.subject = gB)) ∧
    (update_comparison_results "3.1" argsRec ext0 jsRec [] = .ok [cACrec] →
      ∀ c ∈ [cACrec], c ∈ ([] : List ComparisonR) ∨
        ∃ j ∈ jsRec, ingestJob "3.1" argsRec ext0 j = .ok c ∧
          ¬(j.query = gA ∧ j.subject = gB)) := by
  have h := C7_recovery_hit_skips_job_and_ingestion argsRec ext0 fsAB
    [(gA, gB), (gA, gC)] jsRec gA gB "3.1" [] [cACrec] rfl rfl
    (by simp [fsAB])
  exact ⟨rfl, h.1, h.2⟩

/- ### Matrix lemmas and claim C5 -/

/-- A comparison's loop iteration writes the cells `(query_id, subject_id)`
and `(subject_id, query_id)`. -/
def mentionsCell (c : ComparisonR) (i j : Nat) : Prop :=
  (c.query_id = i ∧ c.subject_id = j) ∨ (c.query_id = j ∧ c.subject_id = i)

instance (c : ComparisonR) (i j : Nat) : Decidable (mentionsCell c i j) :=
  inferInstanceAs (Decidable (_ ∨ _))

theorem mentionsCell_swap {c : ComparisonR} {i j : Nat}
    (h : mentionsCell c i j) : mentionsCell c j i := h.symm

theorem matSetPair_not_mentioned {m : Mat} {q s i j : Nat} {a b : ℚ}
    (h1 : ¬(q = i ∧ s = j)) (h2 : ¬(q = j ∧ s = i)) :
    matSetPair m q s a b i j = m i j := by
  unfold matSetPair matSet
  rw [if_neg (fun hc : i = s ∧ j = q => h2 ⟨hc.2.symm, hc.1.symm⟩),
    if_neg (fun hc : i = q ∧ j = s => h1 ⟨hc.1.symm, hc.2.symm⟩)]

theorem matSetPair_qs {m : Mat} {q s : Nat} {a b : ℚ} (h : q ≠ s) :
    matSetPair m q s a b q s = some a := by
  unfold matSetPair matSet
  rw [if_neg (fun hc : q = s ∧ s = q => h hc.1), if_pos ⟨rfl, rfl⟩]

theorem matSetPair_sq {m : Mat} {q s : Nat} {a b : ℚ} :
    matSetPair m q s a b s q = some b := by
  unfold matSetPair matSet
  rw [if_pos ⟨rfl, rfl⟩]

/-- The comparison loop leaves a cell alone when no comparison writes it. -/
theorem foldl_setPair_not_mentioned (vq vs : ComparisonR → ℚ)
    (comps : List ComparisonR) (m : Mat) (i j : Nat)
    (h : ∀ c ∈ comps, ¬ mentionsCell c i j) :
    comps.foldl
      (fun m c => matSetPair m c.query_id c.subject_id (vq c) (vs c)) m i j =
      m i j := by
  induction comps generalizing m with
  | nil => rfl
  | cons c rest ih =>
    rw [List.foldl_cons, ih _ (fun c' hc' => h c' (List.mem_cons_of_mem _ hc'))]
    have hnc := h c (List.mem_cons_self ..)
    exact matSetPair_not_mentioned (fun hc => hnc (.inl hc)) (fun hc => hnc (.inr hc))

/-- The comparison loop writes each listed comparison's two cells with its
query-role and subject-role values, provided no two comparisons cover the
same unordered pair. -/
theorem foldl_setPair_mem (vq vs : ComparisonR → ℚ)
    {comps : List ComparisonR} {c : ComparisonR} (m : Mat) (hc : c ∈ comps)
    (hdist : comps.Pairwise (fun x y => ¬ mentionsCell y x.query_id x.subject_id))
    (hqs : ∀ c' ∈ comps, c'.query_id ≠ c'.subject_id) :
    comps.foldl
      (fun m c => matSetPair m c.query_id c.subject_id (vq c) (vs c)) m
        c.query_id c.subject_id = some (vq c) ∧
    comps.foldl
      (fun m c => matSetPair m c.query_id c.subject_id (vq c) (vs c)) m
        c.subject_id c.query_id = some (vs c) := by
  induction comps generalizing m with
  | nil => simp at hc
  | cons c0 rest ih =>
    rw [List.foldl_cons]
    rcases List.mem_cons.mp hc with rfl | hmem
    · have hrest : ∀ c' ∈ rest, ¬ mentionsCell c' c.query_id c.subject_id :=
        (List.pairwise_cons.mp hdist).1
      constructor
      · rw [foldl_setPair_not_mentioned vq vs rest _ _ _ hrest,
          matSetPair_qs (hqs c (List.mem_cons_self ..))]
      · rw [foldl_setPair_not_mentioned vq vs rest _ _ _
          (fun c' h' hm => hrest c' h' (mentionsCell_swap hm)), matSetPair_sq]
    · exact ih _ hmem (List.pairwise_cons.mp hdist).2
        (fun c' h' => hqs c' (List.mem_cons_of_mem _ h'))

theorem alnlenDiagAux_preserve (gs : List GenomeR) (m : Mat) (i j : Nat)
    (h : ∀ g ∈ gs, ¬(i = g.genome_id ∧ j = g.genome_id)) :
    alnlenDiagAux m gs i j = m i j := by
  induction gs generalizing m with
  | nil => rfl
  | cons g rest ih =>
    rw [alnlenDiagAux, ih _ (fun g' h' => h g' (List.mem_cons_of_mem _ h'))]
    unfold matSet
    rw [if_neg (h g (List.mem_cons_self ..))]

theorem alnlenDiagAux_mem {gs : List GenomeR} {g : GenomeR} (m : Mat)
    (hg : g ∈ gs) (hnodup : (gs.map (fun x => x.genome_id)).Nodup) :
    alnlenDiagAux m gs g.genome_id g.genome_id = some (g.length : ℚ) := by
  induction gs generalizing m with
  | nil => simp at hg
  | cons g0 rest ih =>
    rw [alnlenDiagAux]
    rw [List.map_cons] at hnodup
    obtain ⟨hnotin, hrestnodup⟩ := List.nodup_cons.mp hnodup
    rcases List.mem_cons.mp hg with rfl | hmem
    · have hno : ∀ g' ∈ rest, ¬(g.genome_id = g'.genome_id ∧
          g.genome_id = g'.genome_id) := by
        intro g' h' hc
        exact hnotin (List.mem_map.mpr ⟨g', h', hc.1.symm⟩)
      rw [alnlenDiagAux_preserve _ _ _ _ hno]
      unfold matSet
      rw [if_pos ⟨rfl, rfl⟩]
    · exact ih _ hmem hrestnodup

theorem foldl_applyComp_index (comps : List ComparisonR) (M : MatrixSet) :
    (comps.foldl applyComp M).index = M.index := by
  induction comps generalizing M with
  | nil => rfl
  | cons c rest ih => rw [List.foldl_cons, ih]; rfl

theorem foldl_applyComp_identity (comps : List ComparisonR) (M : MatrixSet) :
    (comps.foldl applyComp M).identity =
      comps.foldl
        (fun m c => matSetPair m c.query_id c.subject_id c.identity c.identity)
        M.identity := by
  induction comps generalizing M with
  | nil => rfl
  | cons c rest ih => rw [List.foldl_cons, List.foldl_cons]; exact ih _

theorem foldl_applyComp_coverage (comps : List ComparisonR) (M : MatrixSet) :
    (comps.foldl applyComp M).coverage =
      comps.foldl
        (fun m c => matSetPair m c.query_id c.subject_id c.cov_query c.cov_subject)
        M.coverage := by
  induction comps generalizing M with
  | nil => rfl
  | cons c rest ih => rw [List.foldl_cons, List.foldl_cons]; exact ih _

theorem foldl_applyComp_alnlength (comps : List ComparisonR) (M : MatrixSet) :
    (comps.foldl applyComp M).alnlength =
      comps.foldl
        (fun m c => matSetPair m c.query_id c.subject_id
          (c.aln_length : ℚ) (c.aln_length : ℚ))
        M.alnlength := by
  induction comps generalizing M with
  | nil => rfl
  | cons c rest ih => rw [List.foldl_cons, List.foldl_cons]; exact ih _

theorem foldl_applyComp_simerrors (comps : List ComparisonR) (M : MatrixSet) :
    (comps.foldl applyComp M).simerrors =
      comps.foldl
        (fun m c => matSetPair m c.query_id c.subject_id
          (c.sim_errs : ℚ) (c.sim_errs : ℚ))
        M.simerrors := by
  induction comps generalizing M with
  | nil => rfl
  | cons c rest ih => rw [List.foldl_cons, List.foldl_cons]; exact ih _

theorem foldl_applyComp_hadamard (comps : List ComparisonR) (M : MatrixSet) :
    (comps.foldl applyComp M).hadamard =
      comps.foldl
        (fun m c => matSetPair m c.query_id c.subject_id
          (c.identity * c.cov_query) (c.identity * c.cov_subject))
        M.hadamard := by
  induction comps generalizing M with
  | nil => rfl
  | cons c rest ih => rw [List.foldl_cons, List.foldl_cons]; exact ih _

/-- C5: after `update_comparison_matrices`, the matrices are indexed on
both axes by the sorted genome identifiers; identity, coverage,
similarity-error and Hadamard diagonals are 1.0 and the alignment-length
diagonal is each genome's stored length; for every Comparison (q, s) of
the run, identity, alignment-length and similarity-error entries are
symmetric with the comparison's values, coverage holds query coverage at
[q, s] and subject coverage at [s, q], Hadamard holds identity × the
corresponding coverage; cells of pairs with no Comparison stay unset. -/
theorem C5_matrix_synthesis (genomes : List GenomeR) (comps : List ComparisonR)
    (hnodup : (genomes.map (fun g => g.genome_id)).Nodup)
    (hids : ∀ c ∈ comps, c.query_id ∈ genomes.map (fun g => g.genome_id) ∧
      c.subject_id ∈ genomes.map (fun g => g.genome_id))
    (hqs : ∀ c ∈ comps, c.query_id ≠ c.subject_id)
    (hdist : comps.Pairwise (fun x y => ¬ mentionsCell y x.query_id x.subject_id)) :
    (update_comparison_matrices genomes comps).index =
      (genomes.map (fun g => g.genome_id)).insertionSort (· ≤ ·) ∧
    (∀ g ∈ genomes,
      (update_comparison_matrices genomes comps).identity
        g.genome_id g.genome_id = some 1 ∧
      (update_comparison_matrices genomes comps).coverage
        g.genome_id g.genome_id = some 1 ∧
      (update_comparison_matrices genomes comps).simerrors
        g.genome_id g.genome_id = some 1 ∧
      (update_comparison_matrices genomes comps).hadamard
        g.genome_id g.genome_id = some 1 ∧
      (update_comparison_matrices genomes comps).alnlength
        g.genome_id g.genome_id = some (g.length : ℚ)) ∧
    (∀ c ∈ comps,
      (update_comparison_matrices genomes comps).identity
        c.query_id c.subject_id = some c.identity ∧
      (update_comparison_matrices genomes comps).identity
        c.subject_id c.query_id = some c.identity ∧
      (update_comparison_matrices genomes comps).coverage
        c.query_id c.subject_id = some c.cov_query ∧
      (update_comparison_matrices genomes comps).coverage
        c.subject_id c.query_id = some c.cov_subject ∧
      (update_comparison_matrices genomes comps).alnlength
        c.query_id c.subject_id = some (c.aln_length : ℚ) ∧
      (update_comparison_matrices genomes comps).alnlength
        c.subject_id c.query_id = some (c.aln_length : ℚ) ∧
      (update_comparison_matrices genomes comps).simerrors
        c.query_id c.subject_id = some (c.sim_errs : ℚ) ∧
      (update_comparison_matrices genomes comps).simerrors
        c.subject_id c.query_id = some (c.sim_errs : ℚ) ∧
      (update_comparison_matrices genomes comps).hadamard
        c.query_id c.subject_id = some (c.identity * c.cov_query) ∧
      (update_comparison_matrices genomes comps).hadamard
        c.subject_id c.query_id = some (c.identity * c.cov_subject)) ∧
    (∀ i j : Nat, i ≠ j → (∀ c ∈ comps, ¬ mentionsCell c i j) →
      (update_comparison_matrices genomes comps).identity i j = none ∧
      (update_comparison_matrices genomes comps).coverage i j = none ∧
      (update_comparison_matrices genomes comps).alnlength i j = none ∧
      (update_comparison_matrices genomes comps).simerrors i j = none ∧
      (update_comparison_matrices genomes comps).hadamard i j = none) := by
  unfold update_comparison_matrices
  refine ⟨?_, ?_, ?_, ?_⟩
  · rw [foldl_applyComp_index]
    rfl
  · intro g hg
    have hgid : g.genome_id ∈ sortedGenomeIds genomes :=
      (List.perm_insertionSort _ _).mem_iff.mpr (List.mem_map.mpr ⟨g, hg, rfl⟩)
    have hdiagnm : ∀ c ∈ comps, ¬ mentionsCell c g.genome_id g.genome_id := by
      intro c hc hm
      rcases hm with ⟨h1, h2⟩ | ⟨h1, h2⟩ <;> exact hqs c hc (h1.trans h2.symm)
    refine ⟨?_, ?_, ?_, ?_, ?_⟩
    · rw [foldl_applyComp_identity,
        foldl_setPair_not_mentioned _ _ _ _ _ _ hdiagnm]
      show diagOnes (sortedGenomeIds genomes) _ _ = _
      unfold diagOnes
      rw [if_pos ⟨rfl, hgid⟩]
    · rw [foldl_applyComp_coverage,
        foldl_setPair_not_mentioned _ _ _ _ _ _ hdiagnm]
      show diagOnes (sortedGenomeIds genomes) _ _ = _
      unfold diagOnes
      rw [if_pos ⟨rfl, hgid⟩]
    · rw [foldl_applyComp_simerrors,
        foldl_setPair_not_mentioned _ _ _ _ _ _ hdiagnm]
      show diagOnes (sortedGenomeIds genomes) _ _ = _
      unfold diagOnes
      rw [if_pos ⟨rfl, hgid⟩]
    · rw [foldl_applyComp_hadamard,
        foldl_setPair_not_mentioned _ _ _ _ _ _ hdiagnm]
      show diagOnes (sortedGenomeIds genomes) _ _ = _
      unfold diagOnes
      rw [if_pos ⟨rfl, hgid⟩]
    · rw [foldl_applyComp_alnlength,
        foldl_setPair_not_mentioned _ _ _ _ _ _ hdiagnm]
      exact alnlenDiagAux_mem _ hg hnodup
  · intro c hc
    refine ⟨?_, ?_, ?_, ?_, ?_, ?_, ?_, ?_, ?_, ?_⟩
    · rw [foldl_applyComp_identity]
      exact (foldl_setPair_mem (fun c => c.identity) (fun c => c.identity)
        _ hc hdist hqs).1
    · rw [foldl_applyComp_identity]
      exact (foldl_setPair_mem (fun c => c.identity) (fun c => c.identity)
        _ hc hdist hqs).2
    · rw [foldl_applyComp_coverage]
      exact (foldl_setPair_mem (fun c => c.cov_query) (fun c => c.cov_subject)
        _ hc hdist hqs).1
    · rw [foldl_applyComp_coverage]
      exact (foldl_setPair_mem (fun c => c.cov_query) (fun c => c.cov_subject)
        _ hc hdist hqs).2
    · rw [foldl_applyComp_alnlength]
      exact (foldl_setPair_mem (fun c => (c.aln_length : ℚ))
        (fun c => (c.aln_length : ℚ)) _ hc hdist hqs).1
    · rw [foldl_applyComp_alnlength]
      exact (foldl_setPair_mem (fun c => (c.aln_length : ℚ))
        (fun c => (c.aln_length : ℚ)) _ hc hdist hqs).2
    · rw [foldl_applyComp_simerrors]
      exact (foldl_setPair_mem (fun c => (c.sim_errs : ℚ))
        (fun c => (c.sim_errs : ℚ)) _ hc hdist hqs).1
    · rw [foldl_applyComp_simerrors]
      exact (foldl_setPair_mem (fun c => (c.sim_errs : ℚ))
        (fun c => (c.sim_errs : ℚ)) _ hc hdist hqs).2
    · rw [foldl_applyComp_hadamard]
      exact (foldl_setPair_mem (fun c => c.identity * c.cov_query)
        (fun c => c.identity * c.cov_subject) _ hc hdist hqs).1
    · rw [foldl_applyComp_hadamard]
      exact (foldl_setPair_mem (fun c => c.identity * c.cov_query)
        (fun c => c.identity * c.cov_subject) _ hc hdist hqs).2
  · intro i j hij hnm
    have hinit : ∀ g' ∈ genomes, ¬(i = g'.genome_id ∧ j = g'.genome_id) := by
      intro g' _ hc
      exact hij (hc.1.trans hc.2.symm)
    refine ⟨?_, ?_, ?_, ?_, ?_⟩
    · rw [foldl_applyComp_identity,
        foldl_setPair_not_mentioned _ _ _ _ _ _ hnm]
      show diagOnes (sortedGenomeIds genomes) _ _ = _
      unfold diagOnes
      rw [if_neg (fun hc => hij hc.1)]
    · rw [foldl_applyComp_coverage,
        foldl_setPair_not_mentioned _ _ _ _ _ _ hnm]
      show diagOnes (sortedGenomeIds genomes) _ _ = _
      unfold diagOnes
      rw [if_neg (fun hc => hij hc.1)]
    · rw [foldl_applyComp_alnlength,
        foldl_setPair_not_mentioned _ _ _ _ _ _ hnm]
      show alnlenDiagAux (fun _ _ => none) genomes i j = none
      rw [alnlenDiagAux_preserve _ _ _ _ hinit]
    · rw [foldl_applyComp_simerrors,
        foldl_setPair_not_mentioned _ _ _ _ _ _ hnm]
      show diagOnes (sortedGenomeIds genomes) _ _ = _
      unfold diagOnes
      rw [if_neg (fun hc => hij hc.1)]
    · rw [foldl_applyComp_hadamard,
        foldl_setPair_not_mentioned _ _ _ _ _ _ hnm]
      show diagOnes (sortedGenomeIds genomes) _ _ = _
      unfold diagOnes
      rw [if_neg (fun hc => hij hc.1)]

/-- Witness for C5 at genomes A, B, C with the single (A, B) comparison. -/
theorem C5_witness :
    (update_comparison_matrices [gA, gB, gC] [cAB]).index =
      (([gA, gB, gC].map (fun g => g.genome_id)).insertionSort (· ≤ ·)) ∧
    (∀ g ∈ [gA, gB, gC],
      (update_comparison_matrices [gA, gB, gC] [cAB]).identity
        g.genome_id g.genome_id = some 1 ∧
      (update_comparison_matrices [gA, gB, gC] [cAB]).coverage
        g.genome_id g.genome_id = some 1 ∧
      (update_comparison_matrices [gA, gB, gC] [cAB]).simerrors
        g.genome_id g.genome_id = some 1 ∧
      (update_comparison_matrices [gA, gB, gC] [cAB]).hadamard
        g.genome_id g.genome_id = some 1 ∧
      (update_comparison_matrices [gA, gB, gC] [cAB]).alnlength
        g.genome_id g.genome_id = some (g.length : ℚ)) ∧
    (∀ c ∈ [cAB],
      (update_comparison_matrices [gA, gB, gC] [cAB]).identity
        c.query_id c.subject_id = some c.identity ∧
      (update_comparison_matrices [gA, gB, gC] [cAB]).identity
        c.subject_id c.query_id = some c.identity ∧
      (update_comparison_matrices [gA, gB, gC] [cAB]).coverage
        c.query_id c.subject_id = some c.cov_query ∧
      (update_comparison_matrices [gA, gB, gC] [cAB]).coverage
        c.subject_id c.query_id = some c.cov_subject ∧
      (update_comparison_matrices [gA, gB, gC] [cAB]).alnlength
        c.query_id c.subject_id = some (c.aln_length : ℚ) ∧
      (update_comparison_matrices [gA, gB, gC] [cAB]).alnlength
        c.subject_id c.query_id = some (c.aln_length : ℚ) ∧
      (update_comparison_matrices [gA, gB, gC] [cAB]).simerrors
        c.query_id c.subject_id = some (c.sim_errs : ℚ) ∧
      (update_comparison_matrices [gA, gB, gC] [cAB]).simerrors
        c.subject_id c.query_id = some (c.sim_errs : ℚ) ∧
      (update_comparison_matrices [gA, gB, gC] [cAB]).hadamard
        c.query_id c.subject_id = some (c.identity * c.cov_query) ∧
      (update_comparison_matrices [gA, gB, gC] [cAB]).hadamard
        c.subject_id c.query_id = some (c.identity * c.cov_subject)) ∧
    (∀ i j : Nat, i ≠ j → (∀ c ∈ [cAB], ¬ mentionsCell c i j) →
      (update_comparison_matrices [gA, gB, gC] [cAB]).identity i j = none ∧
      (update_comparison_matrices [gA, gB, gC] [cAB]).coverage i j = none ∧
      (update_comparison_matrices [gA, gB, gC] [cAB]).alnlength i j = none ∧
      (update_comparison_matrices [gA, gB, gC] [cAB]).simerrors i j = none ∧
      (update_comparison_matrices [gA, gB, gC] [cAB]).hadamard i j = none) :=
  C5_matrix_synthesis [gA, gB, gC] [cAB] (by decide) (by decide) (by decide)
    (by decide)

/- ### Claim C8: dedup idempotence across two runs -/

/-- Without recovery mode, `generate_joblist` emits a job for every pair in
the work set. -/
theorem genjob_no_recovery_pairs {args : Args} {ext : Ext}
    {ef : Option (List String)} {idx : Nat}
    {pairs : List (GenomeR × GenomeR)} {js : List ComparisonJobR}
    (hrec : args.recovery = false)
    (h : generate_joblist_aux args ext ef idx pairs = .ok js) :
    ∀ p ∈ pairs, ∃ j ∈ js, j.query = p.1 ∧ j.subject = p.2 := by
  induction pairs generalizing idx js with
  | nil => intro p hp; simp at hp
  | cons hd tl ih =>
    obtain ⟨q, s⟩ := hd
    rw [generate_joblist_aux.eq_def] at h
    dsimp only at h
    rw [hrec, if_neg Bool.false_ne_true] at h
    cases haux : generate_joblist_aux args ext ef (idx + 1) tl with
    | error e => rw [haux] at h; exact absurd h (by simp)
    | ok js' =>
      rw [haux] at h
      obtain rfl : _ :: js' = js := by injection h
      intro p hp
      rcases List.mem_cons.mp hp with rfl | hmem
      · exact ⟨_, List.mem_cons_self .., rfl, rfl⟩
      · obtain ⟨j, hj, hjq⟩ := ih haux p hmem
        exact ⟨j, List.mem_cons_of_mem _ hj, hjq⟩

/-- After a successful non-recovery run, the run's comparison collection
holds, for every candidate pair, a Comparison carrying that pair's lookup
key (reused records via the dedup hit, fresh records via the ingestor). -/
theorem subcmd_success_covers {genomes : List GenomeR}
    {store : List ComparisonR} {v : String} {args : Args} {ext : Ext}
    {st : RunState}
    (hrec : args.recovery = false)
    (h : subcmd_anim_core genomes store v args ext = (st, none)) :
    ∀ p ∈ pairCombinations genomes, ∃ c ∈ st.comparisons,
      comparisonKey c = lookupKey p.1 p.2 v args.maxmatch := by
  unfold subcmd_anim_core at h
  by_cases hempty : (dedupComparisons (buildExistingMap store) v args.maxmatch
      (pairCombinations genomes)).2 = []
  · rw [if_pos hempty] at h
    obtain ⟨rfl, -⟩ := Prod.mk.inj h
    intro p hp
    cases hfind : dictFind (lookupKey p.1 p.2 v args.maxmatch)
        (buildExistingMap store) with
    | none =>
      have := dedup_miss_mem hp hfind
      rw [hempty] at this
      simp at this
    | some c =>
      exact ⟨c, dedup_hit_mem hp hfind, (dictFind_buildExistingMap_some hfind).2⟩
  · rw [if_neg hempty, hrec] at h
    rw [if_neg Bool.false_ne_true] at h
    dsimp only at h
    cases hjs : generate_joblist (dedupComparisons (buildExistingMap store) v
        args.maxmatch (pairCombinations genomes)).2 none args ext with
    | error e =>
      rw [hjs] at h
      exact absurd (Prod.mk.inj h).2 (by simp)
    | ok js =>
      rw [hjs] at h
      dsimp only at h
      cases hrun : run_anim_jobs js args ext with
      | error e =>
        rw [hrun] at h
        exact absurd (Prod.mk.inj h).2 (by simp)
      | ok u =>
        rw [hrun] at h
        dsimp only at h
        cases hupd : update_comparison_results v args ext js
            (dedupComparisons (buildExistingMap store) v args.maxmatch
              (pairCombinations genomes)).1 with
        | error e =>
          rw [hupd] at h
          exact absurd (Prod.mk.inj h).2 (by simp)
        | ok comps =>
          rw [hupd] at h
          obtain ⟨rfl, -⟩ := Prod.mk.inj h
          intro p hp
          cases hfind : dictFind (lookupKey p.1 p.2 v args.maxmatch)
              (buildExistingMap store) with
          | some c =>
            refine ⟨c, ?_, (dictFind_buildExistingMap_some hfind).2⟩
            exact update_results_keeps_acc hupd c (dedup_hit_mem hp hfind)
          | none =>
            obtain ⟨j, hj, hjq, hjs'⟩ := genjob_no_recovery_pairs hrec hjs p
              (dedup_miss_mem hp hfind)
            obtain ⟨c, hc, hkey⟩ := update_results_covers hupd j hj
            exact ⟨c, hc, by rw [hkey, hjq, hjs']⟩

/-- C8: after a fully successful run, re-running the orchestration over the
same genomes, version and arguments resolves every candidate pair through
the deduplication map — each pair's lookup key matches the key under which
the first run recorded that pair — so the second run's work set is empty,
it returns normally through the matrix-update path, and every Comparison it
attaches is one of the first run's records (zero new Comparisons). -/
theorem C8_second_run_produces_no_new_comparisons (genomes : List GenomeR)
    (store : List ComparisonR) (v : String) (args : Args) (ext : Ext)
    (st1 : RunState)
    (hrec : args.recovery = false)
    (h1 : subcmd_anim_core genomes store v args ext = (st1, none)) :
    (dedupComparisons (buildExistingMap st1.comparisons) v args.maxmatch
      (pairCombinations genomes)).2 = [] ∧
    (∀ ext' : Ext, subcmd_anim_core genomes st1.comparisons v args ext' =
      ({ comparisons := (dedupComparisons (buildExistingMap st1.comparisons) v
            args.maxmatch (pairCombinations genomes)).1
         matrices := some (update_comparison_matrices genomes
            (dedupComparisons (buildExistingMap st1.comparisons) v args.maxmatch
              (pairCombinations genomes)).1) }, none)) ∧
    (∀ c ∈ (dedupComparisons (buildExistingMap st1.comparisons) v args.maxmatch
        (pairCombinations genomes)).1, c ∈ st1.comparisons) := by
  have hcov := subcmd_success_covers hrec h1
  have hempty : (dedupComparisons (buildExistingMap st1.comparisons) v
      args.maxmatch (pairCombinations genomes)).2 = [] := by
    refine dedup_all_hit (fun p hp => ?_)
    obtain ⟨c, hc, hkey⟩ := hcov p hp
    rw [← hkey]
    exact dictFind_buildExistingMap_mem hc
  refine ⟨hempty, fun ext' => ?_, fun c hc => ?_⟩
  · unfold subcmd_anim_core
    rw [if_pos hempty]
  · obtain ⟨k, hk⟩ := dedup_appended_mem hc
    exact (dictFind_buildExistingMap_some hk).1

/-- Witness for C8: a successful first run over A, B, C with (A, B) already
stored; the second run resolves all three pairs to existing records. -/
theorem C8_witness :
    (dedupComparisons (buildExistingMap
        ((subcmd_anim_core [gA, gB, gC] [cAB] "3.1" args0 ext0).1).comparisons)
      "3.1" args0.maxmatch (pairCombinations [gA, gB, gC])).2 = [] ∧
    (∀ ext' : Ext, subcmd_anim_core [gA, gB, gC]
        ((subcmd_anim_core [gA, gB, gC] [cAB] "3.1" args0 ext0).1).comparisons
        "3.1" args0 ext' =
      ({ comparisons := (dedupComparisons (buildExistingMap
            ((subcmd_anim_core [gA, gB, gC] [cAB] "3.1" args0 ext0).1).comparisons)
            "3.1" args0.maxmatch (pairCombinations [gA, gB, gC])).1
         matrices := some (update_comparison_matrices [gA, gB, gC]
            (dedupComparisons (buildExistingMap
              ((subcmd_anim_core [gA, gB, gC] [cAB] "3.1" args0 ext0).1).comparisons)
              "3.1" args0.maxmatch (pairCombinations [gA, gB, gC])).1) }, none)) ∧
    (∀ c ∈ (dedupComparisons (buildExistingMap
        ((subcmd_anim_core [gA, gB, gC] [cAB] "3.1" args0 ext0).1).comparisons)
        "3.1" args0.maxmatch (pairCombinations [gA, gB, gC])).1,
      c ∈ ((subcmd_anim_core [gA, gB, gC] [cAB] "3.1" args0 ext0).1).comparisons) :=
  C8_second_run_produces_no_new_comparisons [gA, gB, gC] [cAB] "3.1" args0 ext0
    (subcmd_anim_core [gA, gB, gC] [cAB] "3.1" args0 ext0).1 rfl
    (Prod.ext_iff.mpr ⟨rfl, rfl⟩)

end Pyani
